import Mathlib

/-!
Verification of the dynamic-debate round-selection and turn-dispatch engine of
the `debate` repository (`src/agents/debate_orchestrator.py`,
`src/agents/response_generator.py`, `src/agents/panel_human.py`).

Modelling conventions:
* LLM-backed external calls (`analyze_debate_state`, the panel agents'
  `respond_to_*` methods, and the absent `analyze_manager_message`) are
  nondeterministic: they are modelled by an environment `Env` of oracle
  functions indexed by a call counter (`DState.clock`) that is bumped on
  every such call; a `none` oracle answer models the underlying call raising
  an exception (caught at the call site where the source catches it).
* `ResponseGenerator.generate_dynamic_manager_response` takes three
  parameters after `self` (`context`, `analysis`, `panel_agents`;
  response_generator.py line 284), but every one of the orchestrator's eight
  call sites (debate_orchestrator.py lines 260, 273, 296, 351, 432, 603,
  723, 772) passes **four** positional arguments, appending `round_number`.
  In Python this raises `TypeError` at the call expression itself, before
  the callee's body (and its internal `try`/`except`) can run, and none of
  these call sites is inside a `try` block except the escalation call at
  line 432. Each such call site is therefore modelled as an uncaught raise:
  round handlers and the dispatcher step return `Except DState _`, where
  `.error st` is the `TypeError` propagating with the data state as
  accumulated up to the raise.
* Presentation-boundary output (`DebatePresenter.display_*`) is modelled as
  an append-only list of `Event`s.
* `time.sleep` pacing is cosmetic (config-gated, off by default) and
  produces no observable effect in the model.
* Python `dict` analysis payloads are modelled as structures whose optional
  fields mirror `dict.get` defaults.
-/

/-- A roster entry (`PanelAgent` / `PanelHuman`): `name` plus the `is_human`
property (`PanelHuman.is_human` returns `True`, `PanelAgent.is_human` `False`). -/
structure Participant where
  name : String
  isHuman : Bool
deriving DecidableEq, Repr

/-- One entry of `DebateOrchestrator.all_statements`:
a dict with keys `agent_name`, `stage`, `content`. -/
structure Statement where
  agentName : String
  stage : String
  content : String
deriving DecidableEq, Repr

/-- The analyzer result dict produced by `analyze_debate_state` /
`_validate_analysis`. `none` models an absent key (`dict.get` returning
`None`); `targeted_panels` defaults to `[]` exactly as
`out.get("targeted_panels", [])` does. -/
structure RawAnalysis where
  next_action : Option String := none
  temperature : Option String := none
  main_issue : Option String := none
  missing_perspective : Option String := none
  intervention : Option String := none
  targeted_panels : List String := []
deriving DecidableEq, Repr

/-- The message-target resolution dict consumed from `analyze_manager_message`,
with the defaults the call sites use: `.get("targeted_panels", [])`,
`.get("response_type", "free")`, `.get("is_clash", False)`. -/
structure MessageAnalysis where
  targeted_panels : List String := []
  response_type : String := "free"
  is_clash : Bool := false
deriving DecidableEq, Repr

/-- Events emitted to the presentation boundary (`DebatePresenter.display_*`). -/
inductive Event where
  | managerMessage (text : String)
  | humanResponse (text : String)
  | lineBreak
  | debugLine (text : String)
  | roundBanner (n : Nat) (title : String) (subtitle : String)
  | roundComplete (n : Nat)
  | sectionHeader (title : String)
  | stageHeader (n : Nat) (title : String)
  | debateStartHeader
deriving DecidableEq, Repr

/-- The per-debate mutable data owned by the orchestrator besides the loop
counters: the oracle call counter, `all_statements`, the emitted presentation
events, and `_initial_opinions_done`. -/
structure DState where
  clock : Nat := 0
  statements : List Statement := []
  events : List Event := []
  doneInitial : List String := []
deriving DecidableEq, Repr

/-- The configuration values read by `conduct_dynamic_debate`:
`debate_rounds` (used as `min_rounds`), `dynamic_settings.max_rounds`
(also re-read as `original_max_rounds`), `dynamic_settings.analysis_frequency`,
`dynamic_settings.intervention_threshold`, and `show_debug_info`. -/
structure Config where
  debateRounds : Nat
  maxRounds : Nat := 6
  analysisFrequency : Nat := 2
  interventionThreshold : String := "cold"
  showDebugInfo : Bool := false
deriving DecidableEq, Repr

/-- Oracles for the external collaborator calls, indexed by the call counter
(for `rawAnalyze`, by the round number, since it is called at most once per
round). A `none` answer models the underlying call raising an exception. -/
structure Env where
  rawAnalyze : Nat → Option RawAnalysis
  rawDynamic : Nat → Option String
  rawResolve : Nat → Option MessageAnalysis
  panelResponse : Nat → String

/-- Append one presentation event (`DebatePresenter.display_*`). -/
def emit (e : Event) (st : DState) : DState :=
  { st with events := st.events ++ [e] }

/-- `display_debug_line`, guarded by `config["debate"].get("show_debug_info", False)`. -/
def debugEmit (cfg : Config) (text : String) (st : DState) : DState :=
  if cfg.showDebugInfo then emit (.debugLine text) st else st

/-- Advance the oracle call counter by one external call. -/
def bump (st : DState) : DState :=
  { st with clock := st.clock + 1 }

/-- Python `str.strip()` on the character list: drop whitespace from both
ends. All Python string primitives are modelled structurally over `List Char`
so that concrete runs evaluate inside the kernel. -/
def stripChars (l : List Char) : List Char :=
  ((l.dropWhile Char.isWhitespace).reverse.dropWhile Char.isWhitespace).reverse

/-- Python `s.strip()`. -/
def pyStrip (s : String) : String := ⟨stripChars s.data⟩

/-- Structural scan behind the Python `pat in s` substring test. -/
def listContainsSub : List Char → List Char → Bool
  | [], pat => pat.isEmpty
  | l@(_ :: t), pat => pat.isPrefixOf l || listContainsSub t pat

/-- Python `pat in s` substring test. -/
def hasSub (s pat : String) : Bool := listContainsSub s.data pat.data

/-- Python `s.startswith(pat)`. -/
def pyStartsWith (s pat : String) : Bool := pat.data.isPrefixOf s.data

/-- Fuel-driven scan behind the Python `str.split(sep)` model; the fuel is
seeded with more than the input length and every step consumes at least one
character, so it never runs out on the seeded calls. -/
def pySplitAux (sep : List Char) : Nat → List Char → List Char → List (List Char)
  | 0, l, acc => [acc.reverse ++ l]
  | _ + 1, [], acc => [acc.reverse]
  | fuel + 1, c :: t, acc =>
      if sep.isPrefixOf (c :: t) then
        acc.reverse :: pySplitAux sep fuel ((c :: t).drop sep.length) []
      else
        pySplitAux sep fuel t (c :: acc)

/-- Python `s.split(sep)` for a non-empty separator (the only form the source
uses). -/
def pySplit (s sep : String) : List String :=
  (pySplitAux sep.data (s.data.length + 1) s.data []).map (fun l => ⟨l⟩)

/-- The temperature total order of `_temperature_leq_threshold`:
`order = ["cold", "stuck", "neutral", "heated"]`. -/
def tempOrder : List String := ["cold", "stuck", "neutral", "heated"]

/-- The synonym correction `temp_map = ("balanced" | "normal") -> "neutral"`,
i.e. Python `temp_map.get(s, s)`. -/
def tempSynonym (s : String) : String :=
  if s = "balanced" ∨ s = "normal" then "neutral" else s

/-- `DebateOrchestrator._temperature_leq_threshold`. The temperature argument
is `Option` because the call site passes `analysis.get("temperature")`.
`order.index` on an unknown temperature raises `ValueError`, caught by the
`except` branch which compares `order.index("neutral")` (= 2) against the
threshold; an unknown threshold makes `order.index(th)` raise in the `except`
branch as well, and that second `ValueError` is uncaught — modelled as `none`. -/
def temperatureLeqThreshold (temperature : Option String) (threshold : String) : Option Bool :=
  let t : Option String := temperature.map tempSynonym
  let th := tempSynonym threshold
  match tempOrder.indexOf? th with
  | none => none
  | some j =>
      match t.bind tempOrder.indexOf? with
      | some i => some (decide (i ≤ j))
      | none => some (decide (2 ≤ j))

/-- The panel-name extraction of `generate_manager_message`:
`context.split("패널 이름:")[1].split("-")[0].strip()`, guarded by a
substring test (likewise for the topic with separator `"주제:"`). -/
def extractField (context sep : String) : String :=
  if hasSub context sep then
    pyStrip ((pySplit ((pySplit context sep).getD 1 "") "-").headD "")
  else ""

/-- `ResponseGenerator.generate_manager_message`: a pure template table,
defaulting to `"진행하겠습니다."` for unknown message types. -/
def generateManagerMessage (messageType context : String) : String :=
  let panelName := extractField context "패널 이름:"
  let topic := extractField context "주제:"
  if messageType = "토론 시작" then
    "환영합니다. 오늘의 토론 주제는 \x27" ++ topic ++ "\x27입니다. 본격적인 토론을 시작하겠습니다."
  else if messageType = "패널 소개" then "이제 각 패널을 소개하겠습니다."
  else if messageType = "패널 전환" then "다음 패널을 소개하겠습니다."
  else if messageType = "단계 안내" then "첫 번째 단계로 각 패널의 초기 의견을 들어보겠습니다."
  else if messageType = "발언권 넘김" then panelName ++ " 패널께서 말씀해 주시기 바랍니다."
  else if messageType = "다음 발언자" then "감사합니다. 다음 패널의 의견을 들어보겠습니다."
  else if messageType = "라운드 시작" then "새로운 라운드를 시작하겠습니다."
  else if messageType = "단계 전환" then "이제 두 번째 단계로 상호 토론을 진행하겠습니다."
  else if messageType = "토론 마무리" then "이제 토론을 마무리하는 시간입니다."
  else if messageType = "최종 의견 안내" then "이제 각 패널의 최종 의견을 들어보겠습니다."
  else if messageType = "결론 안내" then "이제 토론의 종합적인 결론을 말씀드리겠습니다."
  else if messageType = "마무리 인사" then "오늘 토론에 참여해 주신 모든 패널께 감사드립니다. 토론을 마칩니다."
  else "진행하겠습니다."

/-- `ResponseGenerator.generate_dynamic_manager_response` as declared in
`src/` (response_generator.py line 284, parameters `context`,
`analysis=None`, `panel_agents=None` after `self`): an LLM call (modelled by
the `rawDynamic` oracle); on success the result is stripped and prefixed with
`"[토론 진행자] "` when missing; on exception the fallback
`"[토론 진행자] 계속 진행하겠습니다."` is returned (`except` branch). The
orchestrator never invokes this function successfully: every one of its
eight call sites passes four positional arguments (appending
`round_number`), which raises `TypeError` at the call expression before this
body can run. The definition is kept to document the function; the call
sites are modelled as the raise (`Except.error`). -/
def generateDynamicManagerResponse (env : Env) (st : DState) : String × DState :=
  match env.rawDynamic st.clock with
  | some raw =>
      let s := pyStrip raw
      let s := if pyStartsWith s "[토론 진행자]" then s else "[토론 진행자] " ++ s
      (s, bump st)
  | none => ("[토론 진행자] 계속 진행하겠습니다.", bump st)

/-- Modelled from the spec: `ResponseGenerator.analyze_manager_message` (the
MessageTargetResolver) is not present under `src/` — only its orchestrator
call sites and test mocks exist. Per the spec it consumes the generated
moderator text and the roster and returns a `TargetResolution`; it may fail,
and on failure the caller must observe an empty resolution. The call-site
`dict.get` defaults (`targeted_panels` `[]`, `response_type` `"free"`,
`is_clash` `False`) are the `MessageAnalysis` defaults. In the source as it
stands this resolver is unreachable from the orchestrator: every resolver
call site (lines 356, 447, 777) is preceded in the same handler by a
`generate_dynamic_manager_response` call that raises `TypeError`. -/
def analyzeManagerMessage (env : Env) (st : DState) : MessageAnalysis × DState :=
  ((env.rawResolve st.clock).getD {}, bump st)

/-- The fallback dict returned by `analyze_debate_state`'s `except` branch. -/
def defaultAnalysis : RawAnalysis :=
  { temperature := some "balanced"
    main_issue := some "일반적인 토론 진행"
    missing_perspective := some "새로운 관점 필요"
    next_action := some "continue_normal"
    intervention := some "계속 진행하겠습니다." }

/-- `ResponseGenerator.analyze_debate_state`: an LLM call (modelled by the
`rawAnalyze` oracle, indexed by round number). Any exception — including JSON
parse failure — is caught and replaced by `defaultAnalysis`. This call site
(debate_orchestrator.py line 209) is arity-consistent with its signature. -/
def analyzeDebateState (env : Env) (round : Nat) : RawAnalysis :=
  (env.rawAnalyze round).getD defaultAnalysis

/-- The five known actions (`valid_actions` in `_validate_analysis`). -/
def validActions : List String :=
  ["provoke_debate", "focus_clash", "change_angle", "pressure_evidence", "continue_normal"]

/-- The four valid temperatures (`valid_temps` in `_validate_analysis`). -/
def validTemps : List String := ["cold", "stuck", "neutral", "heated"]

/-- The `next_action` correction of `_validate_analysis` (which starts from
`out = dict(analysis or {})`, so a `None` analysis becomes the empty dict):
anything outside the five known actions, including a missing key, becomes
`"continue_normal"`. -/
def normalizeAction (na : Option String) : String :=
  match na with
  | some a => if validActions.contains a then a else "continue_normal"
  | none => "continue_normal"

/-- The temperature correction of `_validate_analysis`: synonym mapping
through `temp_map`, then the closed-vocabulary check (`None` or anything
outside `valid_temps` becomes `"neutral"`). -/
def normalizeTemp (t : Option String) : String :=
  match t.map tempSynonym with
  | some t => if validTemps.contains t then t else "neutral"
  | none => "neutral"

/-- `DebateOrchestrator._validate_analysis` (continued): the full corrected
dict, with `targeted_panels` filtered to the roster's names. -/
def validateAnalysis (analysis : Option RawAnalysis) (panels : List Participant) : RawAnalysis :=
  let out := analysis.getD {}
  let names := panels.map Participant.name
  { out with
      next_action := some (normalizeAction out.next_action)
      temperature := some (normalizeTemp out.temperature)
      targeted_panels := out.targeted_panels.filter (fun p => names.contains p) }

/-- One panel turn, common to the surviving round paths: the agent's
`respond_to_debate` (an LLM call, modelled by the `panelResponse` oracle),
then `display_human_response` for a human / `display_line_break` for an AI
panel, and appending to `all_statements`. Pacing `_sleep` calls are cosmetic
and produce nothing. -/
def speak (stage : String) (p : Participant) (env : Env) (st : DState) : DState :=
  let response := env.panelResponse st.clock
  { st with
      clock := st.clock + 1
      events := st.events ++ (if p.isHuman then [Event.humanResponse response] else [Event.lineBreak])
      statements := st.statements ++ [⟨p.name, stage, response⟩] }

/-- The per-agent body of `_conduct_normal_round` on the path that does not
raise (`analysis` is `None`, so the first panel's integrated-message branch
at line 296 is not taken): the first panel gets the round-opening handoff
template and later panels the plain handoff template; then the panel speaks. -/
def normalTurn (env : Env) (roundNumber : Nat) (isFirst : Bool)
    (agent : Participant) (st : DState) : DState :=
  let msg :=
    if isFirst then
      generateManagerMessage "발언권 넘김"
        ("패널 이름: " ++ agent.name ++ " - 토론 라운드 " ++ toString roundNumber ++ "의 의견을 말씀해 주시기 바랍니다.")
    else
      generateManagerMessage "발언권 넘김"
        ("패널 이름: " ++ agent.name ++ " - 이어서 의견을 말씀해 주시기 바랍니다.")
  let st := emit (.managerMessage msg) st
  speak ("동적 토론 라운드 " ++ toString roundNumber) agent env st

/-- `DebateOrchestrator._conduct_normal_round`: banner, then every panel
speaks once in roster order, and the round reports `True`. With a truthy
`analysis` the first panel's iteration calls
`generate_dynamic_manager_response` with four positional arguments
(line 296) and raises `TypeError` out of the handler — modelled as
`.error` with the state as of the raise (only the banner was displayed).
With an empty roster the loop body never runs, so no raise occurs even with
an analysis. -/
def conductNormalRound (env : Env) (roundNumber : Nat)
    (panels : List Participant) (analysis : Option RawAnalysis) (st : DState) :
    Except DState (Bool × DState) :=
  let st := emit (.roundBanner roundNumber "일반 토론" "💬 균형잡힌 토론을 이어갑니다") st
  match panels with
  | [] => .ok (true, st)
  | first :: rest =>
      match analysis with
      | some _ => .error st
      | none =>
          let st := normalTurn env roundNumber true first st
          .ok (true, rest.foldl (fun s a => normalTurn env roundNumber false a s) st)

/-- `DebateOrchestrator._conduct_provoke_round`: banner, then the moderator
text generation at line 351 passes four positional arguments to the
three-parameter `generate_dynamic_manager_response` and raises `TypeError`,
uncaught in this handler. Everything after it — the resolver call, the
target matching, both `completed = False` exits, the targeted-panel turns
and the escalation block — is unreachable. The raise happens before any
statement is appended and before any moderator message is displayed. -/
def conductProvokeRound (cfg : Config) (env : Env) (roundNumber : Nat)
    (panels : List Participant) (analysis : RawAnalysis) (st : DState) :
    Except DState (Bool × DState) :=
  let st := emit (.roundBanner roundNumber "논쟁 유도" "💥 패널 간 직접적인 반박과 논쟁을 유도합니다") st
  .error st

/-- `DebateOrchestrator._conduct_evidence_round`: banner, then the moderator
text generation at line 772 raises `TypeError` exactly as in the provoke
round; the resolver and every later step are unreachable. -/
def conductEvidenceRound (cfg : Config) (env : Env) (roundNumber : Nat)
    (panels : List Participant) (analysis : RawAnalysis) (st : DState) :
    Except DState (Bool × DState) :=
  let st := emit (.roundBanner roundNumber "근거 제시" "🔍 구체적인 데이터와 근거를 요구하여 주장을 검증합니다") st
  .error st

/-- `DebateOrchestrator._conduct_clash_round`: banner; with at least two
panels the challenge-message call at line 603 raises `TypeError` before the
three-beat sequence; with fewer than two panels it delegates to
`_conduct_normal_round(round_number, panel_agents, analysis)` — whose
analysis argument is the dispatcher's truthy dict, so the delegation raises
at line 296 unless the roster is empty. -/
def conductClashRound (env : Env) (roundNumber : Nat)
    (panels : List Participant) (analysis : RawAnalysis) (st : DState) :
    Except DState (Bool × DState) :=
  let st := emit (.roundBanner roundNumber "직접 대결" "🥊 대립각이 큰 2명의 패널이 1:1로 직접 맞서서 토론합니다") st
  match panels with
  | _ :: _ :: _ => .error st
  | _ => conductNormalRound env roundNumber panels (some analysis) st

/-- `DebateOrchestrator._conduct_angle_change_round`: banner; the first
panel's iteration calls `generate_dynamic_manager_response` with four
positional arguments (line 723) and raises `TypeError`; with an empty roster
the loop body never runs and the handler returns `True`. -/
def conductAngleChangeRound (env : Env) (roundNumber : Nat)
    (panels : List Participant) (analysis : RawAnalysis) (st : DState) :
    Except DState (Bool × DState) :=
  let st := emit (.roundBanner roundNumber "새로운 관점" "💡 토론의 시각을 바꿔서 새로운 관점을 도입합니다") st
  match panels with
  | [] => .ok (true, st)
  | _ :: _ => .error st

/-- `DebateOrchestrator._conduct_initial_opinions_stage`: stage header and
guide message, then each panel's initial opinion (`respond_to_topic`,
modelled by the `panelResponse` oracle); non-human panels already recorded in
`_initial_opinions_done` are skipped (`continue`). All manager messages of
this stage come from the arity-consistent `generate_manager_message`
template, so the stage completes without raising. -/
def conductInitialOpinionsStage (env : Env) (topic : String)
    (panels : List Participant) (st : DState) : DState :=
  let total := panels.length
  let st := emit (.stageHeader 1 "초기 의견 발표") st
  let st := emit (.managerMessage (generateManagerMessage "단계 안내"
    "첫 번째 단계로 각 패널의 초기 의견을 들어보겠습니다.")) st
  (panels.enum).foldl (fun s p =>
    let i := p.1
    let agent := p.2
    let s := emit (.managerMessage (generateManagerMessage "발언권 넘김"
      ("패널 이름: " ++ agent.name ++ " - 첫 번째 의견을 말씀해 주시기 바랍니다."))) s
    if agent.isHuman then
      let response := env.panelResponse s.clock
      let s := { s with clock := s.clock + 1,
                        events := s.events ++ [Event.humanResponse response],
                        statements := s.statements ++ [⟨agent.name, "초기 의견", response⟩] }
      if i + 1 < total then
        emit (.managerMessage (generateManagerMessage "다음 발언자"
          "감사합니다. 이제 다음 패널의 의견을 들어보겠습니다.")) s
      else s
    else
      let s := emit .lineBreak s
      if s.doneInitial.contains agent.name then s
      else
        let response := env.panelResponse s.clock
        let s := { s with clock := s.clock + 1,
                          doneInitial := s.doneInitial ++ [agent.name],
                          statements := s.statements ++ [⟨agent.name, "초기 의견", response⟩] }
        if i + 1 < total then
          emit (.managerMessage (generateManagerMessage "다음 발언자"
            "감사합니다. 이제 다음 패널의 의견을 들어보겠습니다.")) s
        else s) st

/-- The analysis computed at the top of a dispatcher iteration: on analysis
rounds (round number a multiple of `analysis_frequency`, or round 1) the
analyzer is called and its result passed through `_validate_analysis`;
otherwise `analysis` stays `None`. (In Python an `analysis_frequency` of 0
would raise `ZeroDivisionError` at the modulus; theorems about the loop
therefore assume a positive frequency.) -/
def roundAnalysis (cfg : Config) (env : Env) (panels : List Participant) (r : Nat) :
    Option RawAnalysis :=
  if r % cfg.analysisFrequency == 0 || r == 1 then
    some (validateAnalysis (some (analyzeDebateState env r)) panels)
  else none

/-- The `next_action` dispatch of `conduct_dynamic_debate`: one handler per
iteration, defaulting to the normal round when there is no analysis this
round or the action is anything else. Returns the handler's `completed`
flag, the updated data state, the `last_round_type` recorded for the round,
and whether the angle-change cooldown round must be updated — or propagates
the handler's `TypeError`. -/
def runSelectedRound (cfg : Config) (env : Env) (r : Nat) (panels : List Participant)
    (analysis : Option RawAnalysis) (ds : DState) :
    Except DState (Bool × DState × String × Bool) :=
  match analysis with
  | some a =>
      if a.next_action == some "provoke_debate" then
        match conductProvokeRound cfg env r panels a ds with
        | .error e => .error e
        | .ok (c, ds) => .ok (c, ds, "provoke_debate", false)
      else if a.next_action == some "focus_clash" then
        match conductClashRound env r panels a ds with
        | .error e => .error e
        | .ok (c, ds) => .ok (c, ds, "focus_clash", false)
      else if a.next_action == some "change_angle" then
        match conductAngleChangeRound env r panels a ds with
        | .error e => .error e
        | .ok (c, ds) => .ok (c, ds, "change_angle", true)
      else if a.next_action == some "pressure_evidence" then
        match conductEvidenceRound cfg env r panels a ds with
        | .error e => .error e
        | .ok (c, ds) => .ok (c, ds, "pressure_evidence", false)
      else
        match conductNormalRound env r panels analysis ds with
        | .error e => .error e
        | .ok (c, ds) => .ok (c, ds, "continue_normal", false)
  | none =>
      match conductNormalRound env r panels none ds with
      | .error e => .error e
      | .ok (c, ds) => .ok (c, ds, "continue_normal", false)

/-- The dispatcher loop state (the spec's `DebateState`):
`last_change_angle_round` starts at `-10`, hence the `Int` type. -/
structure LoopState where
  ds : DState
  currentRound : Nat
  maxRounds : Nat
  consecutiveColdRounds : Nat
  consecutiveFailedRounds : Nat
  lastRoundType : Option String
  lastChangeAngleRound : Int
deriving DecidableEq, Repr

/-- Outcome of one dispatcher iteration: continue looping, break out early
with the closing intervention displayed (dead in the source: the closing
message call itself raises), or an exception propagating out of the loop
(the `TypeError` of a four-argument `generate_dynamic_manager_response`
call, or the uncaught `ValueError` that an unknown intervention threshold
raises inside `_temperature_leq_threshold`). -/
inductive StepResult where
  | next (ls : LoopState)
  | stop (ls : LoopState)
  | crash (ls : LoopState)
deriving DecidableEq, Repr

/-- The loop state carried by a step outcome. -/
def StepResult.state : StepResult → LoopState
  | .next ls => ls
  | .stop ls => ls
  | .crash ls => ls

/-- Head discriminator for concrete runs. -/
def StepResult.isNext : StepResult → Bool
  | .next _ => true
  | _ => false

/-- The extension branch of the termination policy (lines 271-276): with a
heated analysis exactly at the current `max_rounds` and strictly below
`int(original_max_rounds * 1.5)`, the source increments its local
`max_rounds` (line 272) and then calls `generate_dynamic_manager_response`
with four positional arguments (line 273), raising `TypeError`; the local
increment is lost when the exception propagates. -/
def heatedCheck (cfg : Config) (a : RawAnalysis) (ls : LoopState) : StepResult :=
  if a.temperature = some "heated" ∧ ls.currentRound = ls.maxRounds
      ∧ ls.maxRounds < 3 * cfg.maxRounds / 2 then
    .crash ls
  else .next ls

/-- One iteration of the `conduct_dynamic_debate` while-loop: increment the
round, analyse periodically, dispatch to the selected handler (propagating
its `TypeError` if it raises), apply the forced-normal fallback when the
handler reported `completed = False` (lines 237-252; dead, since no handler
returns `False` — they raise first), then the termination policy: the
cold-streak break, whose closing-message call at line 260 raises `TypeError`
instead of displaying and breaking, and the heated extension, whose
message call at line 273 raises likewise. -/
def dispatchStep (cfg : Config) (env : Env) (panels : List Participant) (ls : LoopState) :
    StepResult :=
  let r := ls.currentRound + 1
  let analysis := roundAnalysis cfg env panels r
  match runSelectedRound cfg env r panels analysis ls.ds with
  | .error e => .crash { ls with ds := e, currentRound := r }
  | .ok (completed, ds1, lastType, isAngle) =>
    let lastAngle : Int := if isAngle then (r : Int) else ls.lastChangeAngleRound
    let fallback : Except DState (DState × String) :=
      if completed then .ok (ds1, lastType)
      else
        let ds := debugEmit cfg ("🔄 [라운드 재시도] 라운드 " ++ toString r
          ++ " 재시도 - 유효한 패널 지목 실패 (" ++ toString (ls.consecutiveFailedRounds + 1) ++ "/1)") ds1
        match conductNormalRound env r panels analysis ds with
        | .error e => .error e
        | .ok (_, ds) => .ok (ds, "forced_normal")
    match fallback with
    | .error e => .crash { ls with ds := e, currentRound := r }
    | .ok (ds2, lastType2) =>
      let ds3 := emit (.roundComplete r) ds2
      let base : LoopState :=
        { ds := ds3, currentRound := r, maxRounds := ls.maxRounds,
          consecutiveColdRounds := ls.consecutiveColdRounds,
          consecutiveFailedRounds := 0,
          lastRoundType := some lastType2,
          lastChangeAngleRound := lastAngle }
      match analysis with
      | none => .next { base with consecutiveColdRounds := 0 }
      | some a =>
        match temperatureLeqThreshold a.temperature cfg.interventionThreshold with
        | none => .crash base
        | some isCold =>
          if isCold then
            let cold := ls.consecutiveColdRounds + 1
            if 2 ≤ cold ∧ cfg.debateRounds ≤ r then
              .crash { base with consecutiveColdRounds := cold }
            else heatedCheck cfg a { base with consecutiveColdRounds := cold }
          else heatedCheck cfg a { base with consecutiveColdRounds := 0 }

/-- Counter bookkeeping of a continuing dispatcher iteration: the round
number advances by exactly one and `max_rounds` is unchanged (the only
branch that would change it raises instead of continuing). This justifies
the loop's termination. -/
theorem dispatchStep_next_counters (cfg : Config) (env : Env) (panels : List Participant)
    (ls ls2 : LoopState) (h : dispatchStep cfg env panels ls = .next ls2) :
    ls2.currentRound = ls.currentRound + 1 ∧ ls2.maxRounds = ls.maxRounds := by
  unfold dispatchStep heatedCheck at h
  dsimp only at h
  rcases hrun : runSelectedRound cfg env (ls.currentRound + 1) panels
      (roundAnalysis cfg env panels (ls.currentRound + 1)) ls.ds with e | ⟨c, ds1, t, ang⟩ <;>
    rw [hrun] at h
  · cases h
  · dsimp only at h
    repeat' split at h
    all_goals first
      | (cases h; exact ⟨rfl, rfl⟩)
      | cases h

/-- Result of the dispatcher loop: the loop exits normally or an exception
propagates out. -/
inductive RunResult where
  | finished (ls : LoopState)
  | crashed (ls : LoopState)
deriving DecidableEq, Repr

/-- The `while current_round < max_rounds` loop of `conduct_dynamic_debate`.
It terminates: the round number strictly increases each iteration and
`max_rounds` never changes across a continuing iteration. -/
def dispatchLoop (cfg : Config) (env : Env) (panels : List Participant) (ls : LoopState) :
    RunResult :=
  if h : ls.currentRound < ls.maxRounds then
    match hs : dispatchStep cfg env panels ls with
    | .next ls2 => dispatchLoop cfg env panels ls2
    | .stop ls2 => .finished ls2
    | .crash ls2 => .crashed ls2
  else .finished ls
termination_by ls.maxRounds - ls.currentRound
decreasing_by
  have hc := dispatchStep_next_counters cfg env panels ls _ hs
  omega

/-- The initial loop state of `conduct_dynamic_debate`. -/
def initLoopState (cfg : Config) (ds : DState) : LoopState :=
  { ds := ds, currentRound := 0, maxRounds := cfg.maxRounds,
    consecutiveColdRounds := 0, consecutiveFailedRounds := 0,
    lastRoundType := none, lastChangeAngleRound := -10 }

/-- `DebateOrchestrator.conduct_dynamic_debate`: headers and opening manager
message, fresh `all_statements`, the fixed initial-opinions stage, the
stage-2 header and transition message, then the dispatcher loop from round 0
with `min_rounds = debate_rounds` and `max_rounds` from the dynamic
settings; the function body ends with the loop. -/
def conductDynamicDebate (cfg : Config) (env : Env) (topic : String)
    (panels : List Participant) : RunResult :=
  let ds : DState := {}
  let ds := emit .debateStartHeader ds
  let ds := emit (.managerMessage (generateManagerMessage "토론 시작"
    ("주제: " ++ topic ++ " - 본격적인 토론을 시작하겠습니다."))) ds
  let ds := conductInitialOpinionsStage env topic panels ds
  let ds := emit (.stageHeader 2 "동적 상호 토론") ds
  let ds := emit (.managerMessage (generateManagerMessage "단계 전환"
    "이제 두 번째 단계로 상호 토론을 진행하겠습니다. 토론 상황에 따라 진행 방식을 조정해 나가겠습니다.")) ds
  dispatchLoop cfg env panels (initLoopState cfg ds)

/-- `DebateOrchestrator.add_user_as_panelist`: the user becomes a
`PanelHuman` (whose `is_human` property returns `True`); with more than one
panel the insertion index is `rng.randint(1, len(panel_agents) - 1)` (both
bounds inclusive, drawn from the injected random source), otherwise the user
is appended at the end. -/
def addUserAsPanelist (rng : Nat → Nat → Nat) (panels : List Participant)
    (userName : String) : List Participant :=
  let user : Participant := ⟨userName, true⟩
  let insertPosition :=
    if panels.length > 1 then rng 1 (panels.length - 1) else panels.length
  panels.insertIdx insertPosition user

/-- The manager-message discriminator at the presentation boundary. -/
def Event.isManagerMessage : Event → Bool
  | .managerMessage _ => true
  | _ => false

/-- `emit` only touches the event log. -/
theorem emit_statements (e : Event) (st : DState) : (emit e st).statements = st.statements := rfl

/-- `debugEmit` only touches the event log. -/
theorem debugEmit_statements (cfg : Config) (t : String) (st : DState) :
    (debugEmit cfg t st).statements = st.statements := by
  unfold debugEmit emit
  split <;> rfl

/-- Boolean `contains` agrees with membership (strings have a lawful `BEq`). -/
theorem contains_eq_true_iff {l : List String} {s : String} : l.contains s = true ↔ s ∈ l := by
  simp [List.contains]

/-- The normalized action always lies in the closed action vocabulary. -/
theorem normalizeAction_mem (na : Option String) : normalizeAction na ∈ validActions := by
  rcases na with _ | s
  · decide
  · show (if validActions.contains s = true then s else "continue_normal") ∈ validActions
    by_cases h : validActions.contains s = true
    · rw [if_pos h]
      exact contains_eq_true_iff.mp h
    · rw [if_neg h]
      decide

/-- The normalized temperature always lies in the closed temperature
vocabulary. -/
theorem normalizeTemp_mem (t : Option String) : normalizeTemp t ∈ validTemps := by
  rcases t with _ | s
  · decide
  · show (if validTemps.contains (tempSynonym s) = true then tempSynonym s else "neutral")
      ∈ validTemps
    by_cases h : validTemps.contains (tempSynonym s) = true
    · rw [if_pos h]
      exact contains_eq_true_iff.mp h
    · rw [if_neg h]
      decide

/-- Valid temperatures are untouched by the synonym map. -/
theorem tempSynonym_of_valid (t : String) (h : t ∈ validTemps) : tempSynonym t = t := by
  simp only [validTemps, List.mem_cons, List.not_mem_nil, or_false] at h
  rcases h with rfl | rfl | rfl | rfl <;> rfl

/-- Normalizing an already-normalized action is the identity. -/
theorem normalizeAction_idem (na : Option String) :
    normalizeAction (some (normalizeAction na)) = normalizeAction na := by
  have h := normalizeAction_mem na
  show (if validActions.contains (normalizeAction na) then normalizeAction na
    else "continue_normal") = normalizeAction na
  rw [if_pos (contains_eq_true_iff.mpr h)]

/-- Normalizing an already-normalized temperature is the identity. -/
theorem normalizeTemp_idem (t : Option String) :
    normalizeTemp (some (normalizeTemp t)) = normalizeTemp t := by
  have h := normalizeTemp_mem t
  show (match (some (normalizeTemp t)).map tempSynonym with
    | some u => if validTemps.contains u then u else "neutral"
    | none => "neutral") = normalizeTemp t
  simp only [Option.map_some', tempSynonym_of_valid _ h]
  rw [if_pos (contains_eq_true_iff.mpr h)]

/-- `_validate_analysis` is idempotent. -/
theorem validateAnalysis_idem (a : Option RawAnalysis) (panels : List Participant) :
    validateAnalysis (some (validateAnalysis a panels)) panels = validateAnalysis a panels := by
  unfold validateAnalysis
  simp [normalizeAction_idem, normalizeTemp_idem, List.filter_filter]

/-- C4: for every raw analysis (including a missing/`None` one) and every
roster, `_validate_analysis` returns a closed-vocabulary result: the
`next_action` is kept exactly when it is one of the five known values and
replaced by `continue_normal` otherwise (also when missing); the temperature
maps the synonyms `balanced`/`normal` to `neutral`, keeps the four valid
values, and maps any other (or missing) value to `neutral`; `targeted_panels`
is exactly the input filtered to roster names (hence always a subset of the
roster); the remaining payload fields are passed through unchanged (the
function copies its input dict, so purity holds and is inherent in this
embedding); and validation is idempotent — in particular on already-valid
input. -/
theorem validateAnalysis_spec (a : Option RawAnalysis) (panels : List Participant) :
    (∃ s, (validateAnalysis a panels).next_action = some s ∧ s ∈ validActions) ∧
    (∃ t, (validateAnalysis a panels).temperature = some t ∧ t ∈ validTemps) ∧
    (∀ s, (a.getD {}).next_action = some s → s ∈ validActions →
      (validateAnalysis a panels).next_action = some s) ∧
    (∀ s, (a.getD {}).next_action = some s → s ∉ validActions →
      (validateAnalysis a panels).next_action = some "continue_normal") ∧
    ((a.getD {}).next_action = none →
      (validateAnalysis a panels).next_action = some "continue_normal") ∧
    (∀ t, (a.getD {}).temperature = some t → (t = "balanced" ∨ t = "normal") →
      (validateAnalysis a panels).temperature = some "neutral") ∧
    (∀ t, (a.getD {}).temperature = some t → t ∈ validTemps →
      (validateAnalysis a panels).temperature = some t) ∧
    (∀ t, (a.getD {}).temperature = some t → t ≠ "balanced" → t ≠ "normal" →
      t ∉ validTemps → (validateAnalysis a panels).temperature = some "neutral") ∧
    ((validateAnalysis a panels).targeted_panels
      = (a.getD {}).targeted_panels.filter
          (fun p => (panels.map Participant.name).contains p)) ∧
    (∀ p ∈ (validateAnalysis a panels).targeted_panels, p ∈ panels.map Participant.name) ∧
    ((validateAnalysis a panels).main_issue = (a.getD {}).main_issue ∧
      (validateAnalysis a panels).missing_perspective = (a.getD {}).missing_perspective ∧
      (validateAnalysis a panels).intervention = (a.getD {}).intervention) ∧
    validateAnalysis (some (validateAnalysis a panels)) panels = validateAnalysis a panels := by
  refine ⟨⟨normalizeAction (a.getD {}).next_action, rfl, normalizeAction_mem _⟩,
    ⟨normalizeTemp (a.getD {}).temperature, rfl, normalizeTemp_mem _⟩,
    ?_, ?_, ?_, ?_, ?_, ?_, rfl, ?_, ⟨rfl, rfl, rfl⟩, validateAnalysis_idem a panels⟩
  · intro s hs hmem
    show some (normalizeAction (a.getD {}).next_action) = some s
    rw [hs]
    show some (if validActions.contains s = true then s else "continue_normal") = some s
    rw [if_pos (contains_eq_true_iff.mpr hmem)]
  · intro s hs hmem
    show some (normalizeAction (a.getD {}).next_action) = some "continue_normal"
    rw [hs]
    show some (if validActions.contains s = true then s else "continue_normal")
      = some "continue_normal"
    rw [if_neg (fun hc => hmem (contains_eq_true_iff.mp hc))]
  · intro hs
    show some (normalizeAction (a.getD {}).next_action) = some "continue_normal"
    rw [hs]
    rfl
  · intro t ht hsyn
    have hts : tempSynonym t = "neutral" := by rcases hsyn with rfl | rfl <;> rfl
    show some (normalizeTemp (a.getD {}).temperature) = some "neutral"
    rw [ht]
    show some (if validTemps.contains (tempSynonym t) = true then tempSynonym t else "neutral")
      = some "neutral"
    rw [hts]
    rfl
  · intro t ht hmem
    show some (normalizeTemp (a.getD {}).temperature) = some t
    rw [ht]
    show some (if validTemps.contains (tempSynonym t) = true then tempSynonym t else "neutral")
      = some t
    rw [tempSynonym_of_valid t hmem, if_pos (contains_eq_true_iff.mpr hmem)]
  · intro t ht hb hn hmem
    have hsyn : tempSynonym t = t := by simp [tempSynonym, hb, hn]
    show some (normalizeTemp (a.getD {}).temperature) = some "neutral"
    rw [ht]
    show some (if validTemps.contains (tempSynonym t) = true then tempSynonym t else "neutral")
      = some "neutral"
    rw [hsyn, if_neg (fun hc => hmem (contains_eq_true_iff.mp hc))]
  · intro p hp
    simp only [validateAnalysis, List.mem_filter] at hp
    exact contains_eq_true_iff.mp hp.2

/-- A concrete raw analyzer output: unknown action, `balanced` synonym, one
roster name and one ghost name. -/
def sampleRaw : RawAnalysis :=
  { next_action := some "provoke", temperature := some "balanced",
    targeted_panels := ["김철수", "유령"] }

/-- A concrete two-panel roster. -/
def sampleRoster : List Participant := [⟨"김철수", false⟩, ⟨"박미영", true⟩]

/-- Witness for C4 at a concrete raw analysis and roster: the unknown action
is replaced, the `balanced` synonym becomes `neutral`, and the ghost name is
filtered away. -/
theorem validateAnalysis_spec_witness :
    (validateAnalysis (some sampleRaw) sampleRoster).next_action = some "continue_normal" ∧
    (validateAnalysis (some sampleRaw) sampleRoster).temperature = some "neutral" ∧
    (validateAnalysis (some sampleRaw) sampleRoster).targeted_panels = ["김철수"] := by
  have h := validateAnalysis_spec (some sampleRaw) sampleRoster
  refine ⟨h.2.2.2.1 "provoke" rfl (by decide), h.2.2.2.2.2.1 "balanced" rfl (Or.inl rfl), ?_⟩
  rw [h.2.2.2.2.2.2.2.2.1]
  rfl

/-- C7: in every round where the Analyzer is called (a multiple of the
analysis frequency, or round 1) and the call fails, the validated analysis
the dispatcher consumes for that round is the safe default: `continue_normal`
action and `neutral` temperature (the fallback dict carries `"balanced"`,
which validation maps to `"neutral"`), the fallback values in the remaining
fields, and no targeted panels. -/
theorem analyzer_failure_safe_default (cfg : Config) (env : Env) (panels : List Participant)
    (r : Nat) (hr : (r % cfg.analysisFrequency == 0 || r == 1) = true)
    (hfail : env.rawAnalyze r = none) :
    roundAnalysis cfg env panels r
      = some { next_action := some "continue_normal", temperature := some "neutral",
               main_issue := some "일반적인 토론 진행", missing_perspective := some "새로운 관점 필요",
               intervention := some "계속 진행하겠습니다.", targeted_panels := [] } := by
  simp only [roundAnalysis, hr, if_true, analyzeDebateState, hfail, Option.getD_none]
  rfl

/-- Witness for C7: round 1 with an always-failing analyzer under the default
frequency. -/
theorem analyzer_failure_safe_default_witness :
    ((1 % (2 : Nat) == 0 || 1 == 1) = true) ∧
    roundAnalysis { debateRounds := 1 }
      { rawAnalyze := fun _ => none, rawDynamic := fun _ => none,
        rawResolve := fun _ => none, panelResponse := fun _ => "발언" }
      sampleRoster 1
      = some { next_action := some "continue_normal", temperature := some "neutral",
               main_issue := some "일반적인 토론 진행", missing_perspective := some "새로운 관점 필요",
               intervention := some "계속 진행하겠습니다.", targeted_panels := [] } :=
  ⟨by decide,
    analyzer_failure_safe_default { debateRounds := 1 }
      { rawAnalyze := fun _ => none, rawDynamic := fun _ => none,
        rawResolve := fun _ => none, panelResponse := fun _ => "발언" }
      sampleRoster 1 (by decide) rfl⟩

/-- Inserting at the very end of a list is appending. -/
theorem insertIdx_length_self {α : Type} (l : List α) (x : α) :
    l.insertIdx l.length x = l ++ [x] := by
  induction l with
  | nil => rfl
  | cons h t ih => simp [List.insertIdx_succ_cons, ih]

/-- C9: under an injected random source honouring the `randint` contract
(inclusive bounds), inserting the human participant into a roster of size
`N > 1` yields size `N + 1` with the new `is_human` entry at an index
strictly between `0` and `N`; for `N ≤ 1` the entry is appended at the end. -/
theorem addUser_spec (rng : Nat → Nat → Nat) (panels : List Participant) (userName : String)
    (hrng : ∀ a b : Nat, a ≤ b → a ≤ rng a b ∧ rng a b ≤ b) :
    (addUserAsPanelist rng panels userName).length = panels.length + 1 ∧
    (1 < panels.length →
      0 < rng 1 (panels.length - 1) ∧ rng 1 (panels.length - 1) < panels.length ∧
      ∃ h : rng 1 (panels.length - 1) < (addUserAsPanelist rng panels userName).length,
        ((addUserAsPanelist rng panels userName).get ⟨rng 1 (panels.length - 1), h⟩
            = ⟨userName, true⟩ ∧
          ((addUserAsPanelist rng panels userName).get
            ⟨rng 1 (panels.length - 1), h⟩).isHuman = true)) ∧
    (panels.length ≤ 1 →
      addUserAsPanelist rng panels userName = panels ++ [⟨userName, true⟩]) := by
  unfold addUserAsPanelist
  by_cases hlen : panels.length > 1
  · have hb := hrng 1 (panels.length - 1) (by omega)
    rw [if_pos hlen]
    have hpos : rng 1 (panels.length - 1) ≤ panels.length := by omega
    have hlen2 : (panels.insertIdx (rng 1 (panels.length - 1)) ⟨userName, true⟩).length
        = panels.length + 1 := List.length_insertIdx _ _ hpos
    refine ⟨hlen2, fun _ => ⟨by omega, by omega, by rw [hlen2]; omega, ?_, ?_⟩,
      fun hle => absurd hlen (by omega)⟩
    · simp only [List.get_eq_getElem]
      exact List.getElem_insertIdx_self panels ⟨userName, true⟩ _ hpos
    · simp only [List.get_eq_getElem]
      rw [List.getElem_insertIdx_self panels ⟨userName, true⟩ _ hpos]
  · rw [if_neg hlen]
    have happ : panels.insertIdx panels.length ⟨userName, true⟩
        = panels ++ [(⟨userName, true⟩ : Participant)] := insertIdx_length_self panels _
    refine ⟨by rw [happ]; simp, fun hgt => absurd hgt hlen, fun _ => happ⟩

/-- Witness for C9: a three-panel roster with the low-end random source, and
a one-panel roster (appended at the end). -/
theorem addUser_spec_witness :
    (addUserAsPanelist (fun a _ => a)
        [⟨"김철수", false⟩, ⟨"박미영", false⟩, ⟨"최민영", false⟩] "사용자").length = 4 ∧
    addUserAsPanelist (fun a _ => a) [⟨"김철수", false⟩] "사용자"
      = [⟨"김철수", false⟩, ⟨"사용자", true⟩] := by
  have h3 := addUser_spec (fun a _ => a)
    [⟨"김철수", false⟩, ⟨"박미영", false⟩, ⟨"최민영", false⟩] "사용자"
    (fun a b h => ⟨Nat.le_refl a, h⟩)
  have h1 := addUser_spec (fun a _ => a) [⟨"김철수", false⟩] "사용자"
    (fun a b h => ⟨Nat.le_refl a, h⟩)
  exact ⟨h3.1, h1.2.2 (by decide)⟩

/-- The normal round with a truthy analysis and a nonempty roster raises at
line 296, with only the banner displayed. -/
theorem normalRound_analysis_error (env : Env) (r : Nat) (p : Participant)
    (rest : List Participant) (a : RawAnalysis) (st : DState) :
    conductNormalRound env r (p :: rest) (some a) st
      = .error (emit (.roundBanner r "일반 토론" "💬 균형잡힌 토론을 이어갑니다") st) := rfl

/-- The clash round with a nonempty roster raises: at line 603 with two or
more panels, and inside the delegated normal round (line 296) with exactly
one. In both cases no statement is appended. -/
theorem clashRound_error (env : Env) (r : Nat) (panels : List Participant)
    (a : RawAnalysis) (st : DState) (hp : panels ≠ []) :
    ∃ st2, conductClashRound env r panels a st = .error st2 ∧
      st2.statements = st.statements := by
  match panels with
  | [] => exact absurd rfl hp
  | [p] => exact ⟨_, rfl, rfl⟩
  | p :: q :: rest => exact ⟨_, rfl, rfl⟩

/-- The angle-change round with a nonempty roster raises at line 723, with
only the banner displayed. -/
theorem angleRound_error (env : Env) (r : Nat) (p : Participant)
    (rest : List Participant) (a : RawAnalysis) (st : DState) :
    conductAngleChangeRound env r (p :: rest) a st
      = .error (emit (.roundBanner r "새로운 관점" "💡 토론의 시각을 바꿔서 새로운 관점을 도입합니다") st) := rfl

/-- Error discriminator for the handler results. -/
def exceptIsError {α : Type} : Except DState α → Bool
  | .error _ => true
  | .ok _ => false

/-- A true error discriminator yields the error value. -/
theorem exists_error_of_isError {α : Type} {X : Except DState α}
    (h : exceptIsError X = true) : ∃ e, X = .error e := by
  cases X with
  | error e => exact ⟨e, rfl⟩
  | ok v => cases h

/-- Every dispatch of an analysis round on a nonempty roster raises,
whatever the validated `next_action`. -/
theorem runSelectedRound_analysis_isError (cfg : Config) (env : Env) (r : Nat)
    (panels : List Participant) (hp : panels ≠ []) (a : RawAnalysis) (ds : DState) :
    exceptIsError (runSelectedRound cfg env r panels (some a) ds) = true := by
  obtain ⟨p, rest, rfl⟩ : ∃ p rest, panels = p :: rest := by
    cases panels with
    | nil => exact absurd rfl hp
    | cons p rest => exact ⟨p, rest, rfl⟩
  unfold runSelectedRound
  dsimp only
  split
  · rfl
  · split
    · obtain ⟨e2, he, _⟩ := clashRound_error env r (p :: rest) a ds (by simp)
      rw [he]
      rfl
    · split
      · rw [angleRound_error]
        rfl
      · split
        · rfl
        · rw [normalRound_analysis_error]
          rfl

/-- Every dispatch of an analysis round on a nonempty roster raises: whatever
the validated `next_action`, the selected handler reaches a four-argument
`generate_dynamic_manager_response` call. -/
theorem runSelectedRound_analysis_error (cfg : Config) (env : Env) (r : Nat)
    (panels : List Participant) (hp : panels ≠ []) (a : RawAnalysis) (ds : DState) :
    ∃ e, runSelectedRound cfg env r panels (some a) ds = .error e :=
  exists_error_of_isError (runSelectedRound_analysis_isError cfg env r panels hp a ds)

/-- A dispatcher iteration that computes an analysis crashes on a nonempty
roster: the selected handler raises `TypeError` before completing. -/
theorem dispatchStep_analysis_crash (cfg : Config) (env : Env)
    (panels : List Participant) (ls : LoopState) (hp : panels ≠ [])
    (ha : ∃ a, roundAnalysis cfg env panels (ls.currentRound + 1) = some a) :
    ∃ ls2, dispatchStep cfg env panels ls = .crash ls2 := by
  obtain ⟨a, ha⟩ := ha
  obtain ⟨e, he⟩ := runSelectedRound_analysis_error cfg env (ls.currentRound + 1) panels hp a ls.ds
  apply Exists.intro
  unfold dispatchStep
  dsimp only
  rw [ha, he]

/-- One unfolding of the dispatcher loop at a crashing step. -/
theorem dispatchLoop_crash_step (cfg : Config) (env : Env) (panels : List Participant)
    (ls ls2 : LoopState) (hlt : ls.currentRound < ls.maxRounds)
    (h : dispatchStep cfg env panels ls = .crash ls2) :
    dispatchLoop cfg env panels ls = .crashed ls2 := by
  rw [dispatchLoop, dif_pos hlt]
  split
  · next ls3 hs => rw [h] at hs; cases hs
  · next ls3 hs => rw [h] at hs; cases hs
  · next ls3 hs => rw [h] at hs; cases hs; rfl

/-- C1 (code bug): every Provoke or Evidence round call raises `TypeError`
at lines 351 / 772 (four positional arguments against the three-parameter
`generate_dynamic_manager_response`), before the resolver is consulted: no
call ever returns `completed = false`, and at the raise no moderator-message
display event has been emitted during the call (only the round banner). The
spec's `false`-return-without-display behaviour is unreachable. -/
theorem provoke_evidence_raise_no_output (cfg : Config) (env : Env) (r : Nat)
    (panels : List Participant) (a : RawAnalysis) (st : DState) :
    (∃ st2, conductProvokeRound cfg env r panels a st = .error st2 ∧
      st2.events.filter Event.isManagerMessage = st.events.filter Event.isManagerMessage ∧
      st2.statements = st.statements) ∧
    (∃ st2, conductEvidenceRound cfg env r panels a st = .error st2 ∧
      st2.events.filter Event.isManagerMessage = st.events.filter Event.isManagerMessage ∧
      st2.statements = st.statements) := by
  refine ⟨⟨_, rfl, ?_, rfl⟩, ⟨_, rfl, ?_, rfl⟩⟩ <;>
    simp [emit, List.filter_append, Event.isManagerMessage]

/-- C10 (vacuous truth): the escalation exchange of the Provoke handler is
unreachable — the handler raises `TypeError` at line 351 before it, and even
the escalation block's own call at line 432 would raise inside the `try` and
be caught at line 490 having appended nothing. Every Provoke call errors
with `all_statements` unchanged, so no escalation-stage statement is ever
appended: every participant who speaks in the escalation exchange (there are
none) is trivially a member of the originally targeted set, at most 2 speak,
and outsiders never speak. -/
theorem provoke_escalation_unreachable (cfg : Config) (env : Env) (r : Nat)
    (panels : List Participant) (a : RawAnalysis) (st : DState) :
    ∃ st2, conductProvokeRound cfg env r panels a st = .error st2 ∧
      st2.statements = st.statements ∧
      st2.statements.filter (fun s => s.stage == "논쟁 유도 라운드 " ++ toString r ++ " 확산")
        = st.statements.filter (fun s => s.stage == "논쟁 유도 라운드 " ++ toString r ++ " 확산") :=
  ⟨_, rfl, rfl, rfl⟩

/-- C2 (code bug): every dynamic debate on a nonempty roster raises an
uncaught `TypeError` in round 1 — round 1 always computes an analysis, every
handler-with-analysis path calls `generate_dynamic_manager_response` with
four positional arguments, and no `try` encloses the loop — so the exception
propagates out of `conduct_dynamic_debate` and the debate never reaches a
conclusion, contradicting the containment guarantee. -/
theorem dynamic_debate_typeerror (cfg : Config) (env : Env) (topic : String)
    (panels : List Participant) (hp : panels ≠ []) (hm : 0 < cfg.maxRounds) :
    ∃ ls2, conductDynamicDebate cfg env topic panels = .crashed ls2 := by
  unfold conductDynamicDebate
  have h1 : ∀ ds : DState, ∃ ls2,
      dispatchStep cfg env panels (initLoopState cfg ds) = .crash ls2 := by
    intro ds
    apply dispatchStep_analysis_crash cfg env panels _ hp
    refine ⟨validateAnalysis (some (analyzeDebateState env (0 + 1))) panels, ?_⟩
    show roundAnalysis cfg env panels (0 + 1) = _
    unfold roundAnalysis
    rw [if_pos (by simp)]
  obtain ⟨ls2, h2⟩ := h1 _
  exact ⟨ls2, dispatchLoop_crash_step cfg env panels _ ls2 hm h2⟩

/-- The always-failing environment used by the concrete runs. -/
def envNone : Env :=
  { rawAnalyze := fun _ => none, rawDynamic := fun _ => none,
    rawResolve := fun _ => none, panelResponse := fun n => "발언 " ++ toString n }

/-- A concrete two-panel roster used by the concrete runs. -/
def cexPanels : List Participant := [⟨"김철수", false⟩, ⟨"박미영", false⟩]

/-- A concrete configuration whose analysis frequency is 3, so that round 2
is not an analysis round. -/
def cfgSkip : Config := { debateRounds := 1, maxRounds := 3, analysisFrequency := 3 }

/-- A concrete loop state entering round 2 (a non-analysis round under
`cfgSkip`). -/
def lsRound2 : LoopState :=
  { ds := {}, currentRound := 1, maxRounds := 3, consecutiveColdRounds := 0,
    consecutiveFailedRounds := 0, lastRoundType := some "continue_normal",
    lastChangeAngleRound := -10 }

/-- A concrete loop state entering round 3 (an analysis round under
`cfgSkip`). -/
def lsRound3 : LoopState :=
  { ds := {}, currentRound := 2, maxRounds := 3, consecutiveColdRounds := 0,
    consecutiveFailedRounds := 0, lastRoundType := some "continue_normal",
    lastChangeAngleRound := -10 }

/-- Witness for C2: the two-panel debate under the failing environment
crashes. -/
theorem dynamic_debate_typeerror_witness :
    cexPanels ≠ [] ∧ 0 < cfgSkip.maxRounds ∧
    ∃ ls2, conductDynamicDebate cfgSkip envNone "인공지능" cexPanels = .crashed ls2 :=
  ⟨by decide, by decide,
    dynamic_debate_typeerror cfgSkip envNone "인공지능" cexPanels (by decide) (by decide)⟩

/-- C3 (code bug): on a nonempty roster no handler dispatch ever returns
`completed = false` (the handlers that could — Provoke and Evidence — raise
`TypeError` at lines 351 / 772 before their `False` exits), so the
forced-normal fallback of lines 237-252 is dead code: every continuing
iteration carries `consecutive_failed_rounds = 0` and records
`last_round_type = continue_normal`, never `forced_normal`. (Had the
fallback been reached, its own `_conduct_normal_round(current_round,
panel_agents, analysis)` call would raise at line 296, since a `False`
return requires a truthy analysis.) -/
theorem forced_normal_fallback_dead (cfg : Config) (env : Env)
    (panels : List Participant) (hp : panels ≠ []) :
    (∀ r analysis ds res, runSelectedRound cfg env r panels analysis ds = .ok res →
      res.1 = true) ∧
    (∀ ls ls2, dispatchStep cfg env panels ls = .next ls2 →
      ls2.consecutiveFailedRounds = 0 ∧ ls2.lastRoundType = some "continue_normal") := by
  obtain ⟨p, rest, rfl⟩ : ∃ p rest, panels = p :: rest := by
    cases panels with
    | nil => exact absurd rfl hp
    | cons p rest => exact ⟨p, rest, rfl⟩
  have hok : ∀ r analysis ds res,
      runSelectedRound cfg env r (p :: rest) analysis ds = .ok res → res.1 = true := by
    intro r analysis ds res hres
    rcases analysis with _ | a
    · simp only [runSelectedRound, conductNormalRound] at hres
      cases hres
      rfl
    · obtain ⟨e, he⟩ := runSelectedRound_analysis_error cfg env r (p :: rest) (by simp) a ds
      rw [he] at hres
      cases hres
  refine ⟨hok, ?_⟩
  intro ls ls2 h
  unfold dispatchStep at h
  dsimp only at h
  rcases hA : roundAnalysis cfg env (p :: rest) (ls.currentRound + 1) with _ | a
  · rw [hA] at h
    simp only [runSelectedRound, conductNormalRound] at h
    cases h
    exact ⟨rfl, rfl⟩
  · obtain ⟨e, he⟩ := runSelectedRound_analysis_error cfg env (ls.currentRound + 1)
      (p :: rest) (by simp) a ls.ds
    rw [hA, he] at h
    cases h

/-- Witness for C3: round 2 under `cfgSkip` is a non-analysis round, its
iteration continues with a zero failed counter and a `continue_normal` round
type. -/
theorem forced_normal_fallback_dead_witness :
    cexPanels ≠ [] ∧
    ∃ out, dispatchStep cfgSkip envNone cexPanels lsRound2 = .next out ∧
      out.consecutiveFailedRounds = 0 ∧ out.lastRoundType = some "continue_normal" := by
  refine ⟨by decide, ?_⟩
  have hb : (dispatchStep cfgSkip envNone cexPanels lsRound2).isNext = true := by decide
  rcases hs : dispatchStep cfgSkip envNone cexPanels lsRound2 with o | o | o
  · exact ⟨o, rfl,
      (forced_normal_fallback_dead cfgSkip envNone cexPanels (by decide)).2 lsRound2 o hs⟩
  · rw [hs] at hb
    cases hb
  · rw [hs] at hb
    cases hb

/-- C5 (code bug): the cold-streak early stop never happens. The dispatcher
never returns the break-with-closing-message outcome: the closing-message
call at line 260 itself raises `TypeError`, and on a nonempty roster no
iteration with an analysis (the only ones whose temperature is consulted)
even completes its handler. Every continuing iteration resets
`consecutive_cold_rounds` to 0 (the `else` arm), so the spec's
increment-to-2-then-stop policy is dead code. -/
theorem cold_break_dead (cfg : Config) (env : Env) (panels : List Participant)
    (hp : panels ≠ []) :
    (∀ ls st2, dispatchStep cfg env panels ls ≠ .stop st2) ∧
    (∀ ls ls2, dispatchStep cfg env panels ls = .next ls2 →
      ls2.consecutiveColdRounds = 0) := by
  constructor
  · intro ls st2 h
    unfold dispatchStep heatedCheck at h
    dsimp only at h
    rcases hrun : runSelectedRound cfg env (ls.currentRound + 1) panels
        (roundAnalysis cfg env panels (ls.currentRound + 1)) ls.ds with e | ⟨c, ds1, t, ang⟩ <;>
      rw [hrun] at h
    · cases h
    · dsimp only at h
      repeat' split at h
      all_goals cases h
  · intro ls ls2 h
    obtain ⟨p, rest, rfl⟩ : ∃ p rest, panels = p :: rest := by
      cases panels with
      | nil => exact absurd rfl hp
      | cons p rest => exact ⟨p, rest, rfl⟩
    unfold dispatchStep at h
    dsimp only at h
    rcases hA : roundAnalysis cfg env (p :: rest) (ls.currentRound + 1) with _ | a
    · rw [hA] at h
      simp only [runSelectedRound, conductNormalRound] at h
      cases h
      rfl
    · obtain ⟨e, he⟩ := runSelectedRound_analysis_error cfg env (ls.currentRound + 1)
        (p :: rest) (by simp) a ls.ds
      rw [hA, he] at h
      cases h

/-- Witness for C5: no stop outcome at the concrete states, and the
continuing round-2 iteration carries a zero cold counter. -/
theorem cold_break_dead_witness :
    cexPanels ≠ [] ∧
    dispatchStep cfgSkip envNone cexPanels lsRound2 ≠ .stop lsRound2 ∧
    ∃ out, dispatchStep cfgSkip envNone cexPanels lsRound2 = .next out ∧
      out.consecutiveColdRounds = 0 := by
  refine ⟨by decide, (cold_break_dead cfgSkip envNone cexPanels (by decide)).1 lsRound2 lsRound2, ?_⟩
  have hb : (dispatchStep cfgSkip envNone cexPanels lsRound2).isNext = true := by decide
  rcases hs : dispatchStep cfgSkip envNone cexPanels lsRound2 with o | o | o
  · exact ⟨o, rfl, (cold_break_dead cfgSkip envNone cexPanels (by decide)).2 lsRound2 o hs⟩
  · rw [hs] at hb
    cases hb
  · rw [hs] at hb
    cases hb

/-- C6 (code bug): the heated extension never happens. Across every
continuing iteration `max_rounds` is unchanged (so `current_round` trivially
stays within the original bound); and every iteration that computes an
analysis — the only ones that can report `heated` — crashes in its handler
on a nonempty roster, before the extension check at line 271 is reached
(whose own message call at line 273 would raise `TypeError` after the local
`max_rounds` increment, losing it). -/
theorem heated_extension_dead (cfg : Config) (env : Env) (panels : List Participant)
    (hp : panels ≠ []) :
    (∀ ls ls2, dispatchStep cfg env panels ls = .next ls2 →
      ls2.maxRounds = ls.maxRounds ∧ ls2.currentRound = ls.currentRound + 1) ∧
    (∀ ls a, roundAnalysis cfg env panels (ls.currentRound + 1) = some a →
      ∃ ls2, dispatchStep cfg env panels ls = .crash ls2) := by
  refine ⟨?_, ?_⟩
  · intro ls ls2 h
    have hc := dispatchStep_next_counters cfg env panels ls ls2 h
    exact ⟨hc.2, hc.1⟩
  · intro ls a ha
    exact dispatchStep_analysis_crash cfg env panels ls hp ⟨a, ha⟩

/-- Witness for C6: the continuing round-2 iteration preserves `max_rounds`,
and the round-3 analysis iteration crashes. -/
theorem heated_extension_dead_witness :
    cexPanels ≠ [] ∧
    (∃ out, dispatchStep cfgSkip envNone cexPanels lsRound2 = .next out ∧
      out.maxRounds = lsRound2.maxRounds) ∧
    ∃ ls2, dispatchStep cfgSkip envNone cexPanels lsRound3 = .crash ls2 := by
  refine ⟨by decide, ?_, ?_⟩
  · have hb : (dispatchStep cfgSkip envNone cexPanels lsRound2).isNext = true := by decide
    rcases hs : dispatchStep cfgSkip envNone cexPanels lsRound2 with o | o | o
    · exact ⟨o,  rfl,
        ((heated_extension_dead cfgSkip envNone cexPanels (by decide)).1 lsRound2 o hs).1⟩
    · rw [hs] at hb
      cases hb
    · rw [hs] at hb
      cases hb
  · exact (heated_extension_dead cfgSkip envNone cexPanels (by decide)).2 lsRound3
      (validateAnalysis (some defaultAnalysis) cexPanels) rfl

/-- C8 (code bug): every Clash round call on a nonempty roster raises
`TypeError` — at line 603 before the three-beat sequence with two or more
panels, and inside the delegated normal round (line 296, the analysis being
the dispatcher's truthy dict) with exactly one — so the three-beat sequence
and the reaction turns never occur, and no statement is appended. -/
theorem clash_raise_typeerror (env : Env) (r : Nat) (panels : List Participant)
    (a : RawAnalysis) (st : DState) (hp : panels ≠ []) :
    ∃ st2, conductClashRound env r panels a st = .error st2 ∧
      st2.statements = st.statements :=
  clashRound_error env r panels a st hp

/-- Witness for C8: the concrete two-panel clash call errors with no
statement appended. -/
theorem clash_raise_typeerror_witness :
    cexPanels ≠ [] ∧
    ∃ st2, conductClashRound envNone 4 cexPanels {} {} = .error st2 ∧
      st2.statements = ({} : DState).statements :=
  ⟨by decide, clash_raise_typeerror envNone 4 cexPanels {} {} (by decide)⟩
